import Mathlib

/-!
Verification of the `python-gsmmodem` serial correlator, command engine and
session logic (files `gsmmodem/serial_comms.py` and `gsmmodem/modem.py`).

The Python code is shallowly embedded: each Python method that a claim depends
on becomes an executable Lean function over explicit state, and the Python
string/regex primitives it uses are modelled by structurally recursive
functions over character lists, so that every definition evaluates inside the
kernel.
-/

/-! ## Python string primitives

Models of the Python `str`/`re` operations used by the embedded code.
All of them are structural recursions over `List Char` so that `decide`
and `rfl` can evaluate them.
-/

/-- Model of Python `s.startswith(p)`. -/
def pyStartsWith (s p : String) : Bool :=
  p.toList.isPrefixOf s.toList

/-- Model of Python `s[n:]` (drop the first `n` characters). -/
def pyStrDrop (s : String) (n : Nat) : String :=
  String.mk (s.toList.drop n)

/-- ASCII decimal digit test, the `\d` character class of Python `re`
(on the ASCII range used by modem responses). -/
def isAsciiDigit (c : Char) : Bool :=
  decide ('0' ≤ c) && decide (c ≤ '9')

/-- The Python `\s` whitespace class (`[ \t\n\r\x0b\x0c]`). -/
def pyIsSpace (c : Char) : Bool :=
  [' ', '\t', '\n', '\r', '\x0b', '\x0c'].contains c

/-- Decimal value accumulator for a digit list. -/
def digitsToNatAux : List Char → Nat → Nat
  | [], acc => acc
  | c :: rest, acc => digitsToNatAux rest (acc * 10 + (c.toNat - Char.toNat '0'))

/-- Conversion of a pure digit string to a number: the value of a
`(\d+)` regex capture, `none` when the string is not one-or-more digits. -/
def pyDigitsToNat? (s : String) : Option Nat :=
  let cs := s.toList
  if (!cs.isEmpty) && cs.all isAsciiDigit then some (digitsToNatAux cs 0) else none

/-- Model of Python `s.strip()` restricted to whitespace. -/
def pyTrim (s : String) : String :=
  String.mk (((s.toList.dropWhile pyIsSpace).reverse.dropWhile pyIsSpace).reverse)

/-- Model of Python `int(s)` for a non-negative decimal string
(whitespace is stripped, as `int` does); `none` models a `ValueError`. -/
def pyInt? (s : String) : Option Nat :=
  pyDigitsToNat? (pyTrim s)

/-- Substring test on character lists, leftmost scan. -/
def listContainsSub (pat : List Char) : List Char → Bool
  | [] => pat.isEmpty
  | c :: rest => pat.isPrefixOf (c :: rest) || listContainsSub pat rest

/-- Model of Python `pat in s` for strings. -/
def pyContains (s pat : String) : Bool :=
  listContainsSub pat.toList s.toList

/-- Splitter on the two-character end-of-line marker `\r\n`; model of
Python `buffer.split(b'\r\n')` from `SerialComms._read`. -/
def splitEolAux : List Char → List Char → List (List Char)
  | [], acc => [acc.reverse]
  | '\r' :: '\n' :: rest, acc => acc.reverse :: splitEolAux rest []
  | c :: rest, acc => splitEolAux rest (c :: acc)

/-- The wrapper `splitEol` splits a string on every `\r\n`, keeping empty
segments, exactly as Python `bytes.split` does. -/
def splitEol (s : String) : List String :=
  (splitEolAux s.toList []).map (fun cs => String.mk cs)

/-- Head-is-digit test: whether a `\d+` pattern can match at the start
of the string (used for the unanchored part of `RESPONSE_TERM`). -/
def startsWithDigit (s : String) : Bool :=
  match s.toList with
  | [] => false
  | c :: _ => isAsciiDigit c

/-! ## Line framer / correlator state (`gsmmodem/serial_comms.py`)

State of a `SerialComms` object as far as line handling is concerned:
the partial-line receive buffer `_rxBuffer`, the pending-command response
accumulator `_response` (`none` when no command is pending), the expected
custom response terminator `_expectResponseTermSeq`, and the notification
accumulator `_notification`.  Responses put on `_responseQueue` and the
flushed notification handed to the notification callback are returned as
outputs of the transition functions.
-/

structure CommsState where
  rxBuffer : String
  response : Option (List String)
  expectResponseTermSeq : Option String
  notification : List String
deriving DecidableEq

/-- Model of the class regex `RESPONSE_TERM =
`^OK|ERROR|(\+CM[ES] ERROR: \d+)|(COMMAND NOT SUPPORT)$``, under Python
`re.match` semantics: every alternative is anchored at the start, only the
last one is anchored at the end. -/
def responseTermMatch (line : String) : Bool :=
  pyStartsWith line ("OK") ||
  pyStartsWith line ("ERROR") ||
  ((pyStartsWith line ("+CME ERROR: ") || pyStartsWith line ("+CMS ERROR: "))
    && startsWithDigit (pyStrDrop line 12)) ||
  decide (line = "COMMAND NOT SUPPORT")

/-- Model of `SerialComms._handle_line` (serial_comms.py lines 70-80).
Returns the new state together with the response delivered to
`_responseQueue`, if this line completed one. -/
def handle_line (st : CommsState) (line : String) (checkForResponseTerm : Bool) :
    CommsState × Option (List String) :=
  match st.response with
  | some r =>
      let r2 := r ++ [line]
      if (!checkForResponseTerm) || responseTermMatch line then
        ({ st with response := none }, some r2)
      else
        ({ st with response := some r2 }, none)
  | none =>
      ({ st with notification := st.notification ++ [line] }, none)

/-- The line loop of `SerialComms._read` (serial_comms.py lines 86-87):
each complete line is handled with
`checkForResponseTerm = not (self._expectResponseTermSeq == line)`.
Returns the final state and all responses delivered to the queue. -/
def handle_lines (st : CommsState) : List String → CommsState × List (List String)
  | [] => (st, [])
  | line :: rest =>
      let check := ! decide (st.expectResponseTermSeq = some line)
      let p1 := handle_line st line check
      let p2 := handle_lines p1.1 rest
      (p2.1, p1.2.toList ++ p2.2)

/-- Line-processing part of `SerialComms._read` (serial_comms.py lines
84-88): append the chunk to `_rxBuffer`, split on `\r\n`, handle every
complete line, and keep the trailing partial line buffered. -/
def readProcess (st : CommsState) (data : String) : CommsState × List (List String) :=
  let lines := splitEol (st.rxBuffer ++ data)
  let p := handle_lines st lines.dropLast
  ({ p.1 with rxBuffer := lines.getLastD ("") }, p.2)

structure ReadOutput where
  responses : List (List String)
  flushed : Option (List String)
deriving DecidableEq

/-- Model of `SerialComms._read` (serial_comms.py lines 82-94): process the
chunk's lines, then flush the notification accumulator through the
notification callback when no partial line remains buffered and the
accumulator is non-empty (`if not self._rxBuffer and self._notification`). -/
def _read (st : CommsState) (data : String) : CommsState × ReadOutput :=
  let p := readProcess st data
  if p.1.rxBuffer.toList.isEmpty && !p.1.notification.isEmpty then
    ({ p.1 with notification := [] }, { responses := p.2, flushed := some p.1.notification })
  else
    (p.1, { responses := p.2, flushed := none })

/-- The pending-command arming part of `SerialComms._write` (serial_comms.py
lines 176-180): when a response is awaited, an (optional, non-empty) custom
terminator is stored and the response accumulator is set to the empty list. -/
def write_arm (st : CommsState) (expectedResponseTermSeq : Option String) : CommsState :=
  { st with
      expectResponseTermSeq :=
        match expectedResponseTermSeq with
        | some t => some t
        | none => st.expectResponseTermSeq,
      response := some [] }

/-- Modelled from the spec: the class `TimeoutException`
(`gsmmodem/exceptions.py` is not under `src/`).  Per the spec (§4.3 Command
Engine) the timeout error carries "any partial data collected so far"; the
exception is therefore modelled with an optional data payload, which is
absent unless the raise site supplies one. -/
structure TimeoutException where
  data : Option (List String)
deriving DecidableEq

/-- Model of the timeout branch of `SerialComms.write` (serial_comms.py lines
164-169): on `TimeoutError` the expected terminator sequence is reset and a
`TimeoutException` is raised with no arguments. -/
def writeTimeout (st : CommsState) : CommsState × TimeoutException :=
  ({ st with expectResponseTermSeq := none }, { data := none })

/-! ## Command engine (`gsmmodem/modem.py`, `GsmModem.write`)

`GsmModem.write` classifies the terminal response line and implements the
device/SIM-busy retry policy (modem.py lines 433-493).  The float field
`self._writeWait` (grown by `0.2`, reset to `0.1` or `0`) is represented in
tenths of a second as a natural number; only its growth pattern matters to
the embedded control flow, never float rounding.  The sequence of responses
the device gives to the successive (re-)issues of the command is passed as a
list; an empty list means the interaction goes on past the modelled window.
-/

inductive CmDomain
  | CME
  | CMS
deriving DecidableEq

/-- Model of `CM_ERROR_REGEX = re.compile('^\+(CM[ES]) ERROR: (\d+)$')`
applied with `re.match`: the line must be exactly the prefix followed by
one or more digits. -/
def parseCmError (line : String) : Option (CmDomain × Nat) :=
  if pyStartsWith line ("+CME ERROR: ") then
    (pyDigitsToNat? (pyStrDrop line 12)).map (fun n => (CmDomain.CME, n))
  else if pyStartsWith line ("+CMS ERROR: ") then
    (pyDigitsToNat? (pyStrDrop line 12)).map (fun n => (CmDomain.CMS, n))
  else none

inductive WriteResult
  | ok (responseLines : List String) (finalWriteWait : Nat)
  | cmeError (code : Nat)
  | cmsError (code : Nat)
  | commandError
  | exhausted
deriving DecidableEq

/-- The typed error raised for a coded error that is not a busy code
(modem.py lines 485-488). -/
def codedError (errorType : CmDomain) (errorCode : Nat) : WriteResult :=
  match errorType with
  | CmDomain.CME => WriteResult.cmeError errorCode
  | CmDomain.CMS => WriteResult.cmsError errorCode

/-- Model of the response-classification and busy-retry logic of
`GsmModem.write` with `waitForResponse=True, parseError=True` (modem.py
lines 459-493).  `writeWait` is `self._writeWait` in tenths of a second.
Each element of the list is the response the modem returns for one issue
of the command; a busy coded error (515 or 14) consumes the next element
by re-issuing the same command after growing the wait by 0.2s, and after
the retry returns, the wait settles to 0.1s (code 515) or 0s (code 14). -/
def modemWrite (writeWait : Nat) : List (List String) → WriteResult
  | [] => WriteResult.exhausted
  | responseLines :: rest =>
    let cmdStatusLine := responseLines.getLastD ("")
    if pyContains cmdStatusLine ("ERROR") then
      match parseCmError cmdStatusLine with
      | some (errorType, errorCode) =>
        if errorCode == 515 || errorCode == 14 then
          match modemWrite (writeWait + 2) rest with
          | WriteResult.ok result _ =>
              WriteResult.ok result (if errorCode == 515 then 1 else 0)
          | e => e
        else codedError errorType errorCode
      | none => WriteResult.commandError
    else if decide (cmdStatusLine = "COMMAND NOT SUPPORT") then
      WriteResult.commandError
    else
      WriteResult.ok responseLines writeWait

/-! ## SMS send reference counter (`GsmModem.sendSms`, modem.py lines 896-917)

In the PDU path, `encodeSmsSubmitPdu(..., reference=self._smsRef, ...)` is
called with the pre-send counter; after a `+CMGS: <ref>` response is parsed
with `int(result[7:])`, the counter is stored as `reference + 1`, wrapped to
`0` when it exceeds `255`, and the `SentSms` object keeps the parsed
reference.
-/

/-- Model of `int(result[7:])` on the `+CMGS:` line (modem.py line 908). -/
def parseCmgsReference (line : String) : Option Nat :=
  pyInt? (pyStrDrop line 7)

/-- Model of the counter update (modem.py lines 909-911):
`self._smsRef = reference + 1; if self._smsRef > 255: self._smsRef = 0`. -/
def sendSmsRefUpdate (reference : Nat) : Nat :=
  if reference + 1 > 255 then 0 else reference + 1

structure SendSmsOutcome where
  encodeReference : Nat
  smsReference : Nat
  newSmsRef : Nat
deriving DecidableEq

/-- Reference bookkeeping of one successful `sendSms` call in PDU mode
(modem.py lines 896-917): `smsRef` is `self._smsRef` before the send (the
value handed to `encodeSmsSubmitPdu`), `cmgsLine` the `+CMGS:` response
line; `none` models the `CommandError` raised when no reference parses. -/
def sendSmsFinish (smsRef : Nat) (cmgsLine : String) : Option SendSmsOutcome :=
  match parseCmgsReference cmgsLine with
  | none => none
  | some reference =>
      some { encodeReference := smsRef, smsReference := reference,
             newSmsRef := sendSmsRefUpdate reference }

/-! ## USSD response parsing (`GsmModem._parseCusdResponse`, modem.py 1485-1516)

`CUSD_REGEX = re.compile('\+CUSD:\s*(\d),\s*"(.*?)",\s*(\d+)', re.DOTALL)`;
a match is represented by its two used capture groups: the one-digit status
(group 1) and the quoted message content (group 2).  The function below is
the loop over `cusdMatches` together with the single-match branch; the
regex scan that produces the match list is its input.
-/

structure CusdMatch where
  status : String
  content : String
deriving DecidableEq

/-- The filtering loop of `_parseCusdResponse` over multiple matches
(modem.py lines 1498-1512), threading `message` and `sessionActive`. -/
def parseCusdFold : List CusdMatch → Option String → Bool → Option String × Bool
  | [], message, sessionActive => (message, sessionActive)
  | m :: rest, message, sessionActive =>
      if decide (m.status = "2") then
        parseCusdFold rest message false
      else
        parseCusdFold rest (some m.content)
          (if sessionActive && (! decide (m.status = "1")) then false else sessionActive)

/-- Model of `GsmModem._parseCusdResponse` as a function of the `+CUSD`
matches found in the notification batch: `none` models the crash on a batch
with no match at all; otherwise the pair is the `(message, sessionActive)`
content of the returned `Ussd` object (modem.py lines 1498-1516). -/
def parseCusdResponse (cusdMatches : List CusdMatch) : Option (Option String × Bool) :=
  match cusdMatches with
  | [] => none
  | [m] => some (some m.content, decide (m.status = "1"))
  | ms => some (parseCusdFold ms none true)

/-- Content of the last match whose status is not the release code `"2"`,
the reference value for the message computed by `parseCusdFold`. -/
def lastNonRelease : List CusdMatch → Option String
  | [] => none
  | m :: rest =>
      match lastNonRelease rest with
      | some c => some c
      | none => if decide (m.status = "2") then none else some m.content

/-! ## Active-call table and synthesized call ids (modem.py 993-1038, 1247-1255)

`self.activeCalls` is a dict keyed by call id; it is modelled by its key
list in insertion order (`tableInsert` models `self.activeCalls[id] = call`,
which replaces the value when the key exists, `tableRemove` models
`del self.activeCalls[id]`).  When no call-init notification is available,
`dial` synthesizes `callId = len(self.activeCalls) + 1` (modem.py line
1016), and `_handleIncomingCall` does the same for an unknown caller
(modem.py line 1253).
-/

/-- Dict-key insertion: a new key is appended, an existing key keeps its
position (the stored value is replaced). -/
def tableInsert (t : List Nat) (i : Nat) : List Nat :=
  if i ∈ t then t else t ++ [i]

/-- Model of `del self.activeCalls[i]`. -/
def tableRemove (t : List Nat) (i : Nat) : List Nat :=
  t.filter (fun j => ! decide (j = i))

/-- Model of `callId = len(self.activeCalls) + 1` (modem.py lines 1016 and
1253). -/
def synthCallId (activeCalls : List Nat) : Nat :=
  activeCalls.length + 1

/-- The call-registration step of `GsmModem.dial` on a profile without
call-init notifications (modem.py lines 1016-1019): synthesize the id and
store the new call under it. -/
def dialAddCall (activeCalls : List Nat) : Nat × List Nat :=
  let callId := synthCallId activeCalls
  (callId, tableInsert activeCalls callId)

/-! ## Incoming-SMS notification handling (`GsmModem._handleSmsReceived`,
modem.py lines 1314-1327) -/

/-- Model of the class regex `CMTI_REGEX` (modem.py line 135), pattern
`^\+CMTI:` then optional whitespace, then a double-quoted non-empty memory
name (group 1, no quote inside), a comma, optional whitespace, and digits
(group 2) up to the end of the line. -/
def parseCmti (line : String) : Option (String × String) :=
  if pyStartsWith line ("+CMTI:") then
    match (pyStrDrop line 6).toList.dropWhile pyIsSpace with
    | '"' :: rest2 =>
        let mem := rest2.takeWhile (fun c => ! decide (c = '"'))
        if ! mem.isEmpty then
          match rest2.drop mem.length with
          | '"' :: ',' :: rest4 =>
              let idx := rest4.dropWhile pyIsSpace
              if (! idx.isEmpty) && idx.all isAsciiDigit then
                some (String.mk mem, String.mk idx)
              else none
          | _ => none
        else none
    | _ => none
  else none

inductive SmsAction
  | readStoredSms (index : String) (memory : String)
  | invokeCallback (index : String)
  | logCallbackError
  | deleteStoredSms (index : String)
deriving DecidableEq

/-- Model of `GsmModem._handleSmsReceived` (modem.py lines 1314-1327) as the
sequence of effects it performs: on a `+CMTI` match it reads the stored
message, invokes the received-SMS callback, and then either logs the
callback's exception (the `except` branch) or deletes the stored message
(the `else` branch).  The handler itself always returns normally. -/
def handleSmsReceived (notificationLine : String) (callbackRaises : Bool) :
    List SmsAction :=
  match parseCmti notificationLine with
  | none => []
  | some (msgMemory, msgIndex) =>
      SmsAction.readStoredSms msgIndex msgMemory ::
        SmsAction.invokeCallback msgIndex ::
          (if callbackRaises then [SmsAction.logCallbackError]
           else [SmsAction.deleteStoredSms msgIndex])

/-! ## Sent-SMS delivery status (`SentSms.status`, modem.py lines 75-97) -/

def SentSms_ENROUTE : Nat := 0
def SentSms_DELIVERED : Nat := 1
def SentSms_FAILED : Nat := 2
def StatusReport_DELIVERED : Nat := 0
def StatusReport_FAILED : Nat := 68

structure StatusReportModel where
  reference : Nat
  deliveryStatus : Nat
deriving DecidableEq

structure SentSmsModel where
  reference : Nat
  report : Option StatusReportModel
deriving DecidableEq

/-- Model of the property `SentSms.status` (modem.py lines 87-97). -/
def sentSmsStatus (sms : SentSmsModel) : Nat :=
  match sms.report with
  | none => SentSms_ENROUTE
  | some report =>
      if report.deliveryStatus == StatusReport_DELIVERED then SentSms_DELIVERED
      else SentSms_FAILED

/-- The initial `SerialComms` line-handling state: empty buffer, no pending
command, no custom terminator, empty notification accumulator. -/
def emptyComms : CommsState :=
  { rxBuffer := (""), response := none, expectResponseTermSeq := none,
    notification := [] }

/-! ## Claims -/

/-- C1: For every pending command issued with a custom expected response
terminator sequence, a framed line equal to that sequence makes the line
loop of `_read` deliver the accumulated response (with that line included)
to the waiting caller and clear the pending-command slot.  The delivery is
unconditional in the line's content, so it happens in particular when the
line is none of the `OK`/`ERROR`/coded-error/not-supported terminal lines. -/
theorem custom_terminator_releases_pending (st : CommsState) (r : List String)
    (t : String) (hr : st.response = some r)
    (ht : st.expectResponseTermSeq = some t) :
    handle_lines st [t] = ({ st with response := none }, [r ++ [t]]) := by
  simp [handle_lines, handle_line, hr, ht]

theorem custom_terminator_releases_pending_witness :
    handle_lines { rxBuffer := (""), response := some [("+CMGS: 1")],
                   expectResponseTermSeq := some ("> "), notification := [] }
        [("> ")] =
      ({ rxBuffer := (""), response := none, expectResponseTermSeq := some ("> "),
         notification := [] }, [[("+CMGS: 1"), ("> ")]]) :=
  custom_terminator_releases_pending _ [("+CMGS: 1")] ("> ") rfl rfl

/-- C2 (counterexample): the flush condition of `_read` does not test
whether a command is pending.  Concretely: a notification line arrives
followed by a partial line, a command is then armed, and the chunk that
completes the partial line (a non-terminal response line) triggers a flush
of the old notification while the command is still pending — refuting the
claim's "no flush to the Notification Router happens while a command is
pending". -/
theorem read_flushes_while_command_pending :
    (_read (write_arm (_read emptyComms ("NOTE\r\nPART")).1 none)
        ("IAL\r\nLINE\r\n")).2.flushed = some [("NOTE")]
    ∧ (_read (write_arm (_read emptyComms ("NOTE\r\nPART")).1 none)
        ("IAL\r\nLINE\r\n")).1.response = some [("PARTIAL"), ("LINE")] := by
  decide

/-- C2 (amended): after processing the lines of each received chunk, the
notification accumulator is flushed as one notification (handed to the
notification callback) exactly when no partial line remains in the receive
buffer and the accumulator is non-empty — whether or not a command is
pending. -/
theorem read_flush_exact_condition (st : CommsState) (data : String) :
    (_read st data).2.flushed =
      (if ((readProcess st data).1.rxBuffer.toList.isEmpty
          && !(readProcess st data).1.notification.isEmpty) = true
       then some (readProcess st data).1.notification
       else none) := by
  simp only [_read]
  by_cases hb : ((readProcess st data).1.rxBuffer.toList.isEmpty
      && !(readProcess st data).1.notification.isEmpty) = true
  · rw [if_pos hb, if_pos hb]
  · rw [if_neg hb, if_neg hb]

/-- C3 (counterexample): the timeout branch of `SerialComms.write` resets
only `_expectResponseTermSeq`; the pending response accumulator `_response`
survives the timeout, refuting the claim that both parts of the
pending-command state are released before the timeout error is raised. -/
theorem write_timeout_keeps_response_accumulator :
    (writeTimeout { rxBuffer := (""), response := some [("+CSQ: 21,0")],
                    expectResponseTermSeq := some ("> "),
                    notification := [] }).1.response = some [("+CSQ: 21,0")] := rfl

/-- C3 (amended): on a `write` timeout, only the expected custom terminator
sequence is released (unconditionally, before the timeout error is raised);
the pending response accumulator is left untouched. -/
theorem write_timeout_releases_termseq_only (st : CommsState) :
    (writeTimeout st).1.expectResponseTermSeq = none
    ∧ (writeTimeout st).1.response = st.response := ⟨rfl, rfl⟩

/-- C4: evaluation at the failing input.  An `AT+CPIN?` command collects the
partial response line `+CPIN: READY` (no terminal `OK`) and then times out;
the `TimeoutException` raised by `SerialComms.write` carries no data,
although `GsmModem._unlockSim` (modem.py lines 417-423) and the repository
test `test_connectPin_timeoutEvents` (test_modem.py lines 1235-1254) expect
the partial response lines in `timeout.data`. -/
theorem write_timeout_discards_partial_response :
    (writeTimeout { rxBuffer := (""), response := some [("+CPIN: READY")],
                    expectResponseTermSeq := none, notification := [] }).2.data =
      none := rfl

/-- C10: a `SentSms` is `ENROUTE` exactly when no status report is attached;
once a report is attached, the status is `DELIVERED` exactly when the
report's `deliveryStatus` equals the `DELIVERED` code 0, and `FAILED` for
every other `deliveryStatus` value. -/
theorem sentSmsStatus_spec (sms : SentSmsModel) :
    (sentSmsStatus sms = SentSms_ENROUTE ↔ sms.report = none)
    ∧ (∀ report, sms.report = some report →
        ((sentSmsStatus sms = SentSms_DELIVERED ↔
            report.deliveryStatus = StatusReport_DELIVERED)
         ∧ (sentSmsStatus sms = SentSms_FAILED ↔
            report.deliveryStatus ≠ StatusReport_DELIVERED))) := by
  cases h : sms.report with
  | none =>
      refine ⟨by simp [sentSmsStatus, h, SentSms_ENROUTE], ?_⟩
      intro report hrep
      exact absurd hrep (by simp)
  | some rep =>
      refine ⟨?_, ?_⟩
      · by_cases hd : rep.deliveryStatus = 0 <;>
          simp [sentSmsStatus, h, hd, SentSms_ENROUTE, SentSms_DELIVERED,
            SentSms_FAILED, StatusReport_DELIVERED]
      · intro report hrep
        injection hrep with hrep2
        subst hrep2
        by_cases hd : rep.deliveryStatus = 0 <;>
          simp [sentSmsStatus, h, hd, SentSms_DELIVERED, SentSms_FAILED,
            StatusReport_DELIVERED]

theorem sentSmsStatus_spec_witness :
    sentSmsStatus ⟨4, some ⟨4, 0⟩⟩ = SentSms_DELIVERED ↔
      (⟨4, 0⟩ : StatusReportModel).deliveryStatus = StatusReport_DELIVERED :=
  ((sentSmsStatus_spec ⟨4, some ⟨4, 0⟩⟩).2 ⟨4, 0⟩ rfl).1

/-- C5: for a successful `sendSms` whose `+CMGS` response parses to a
(protocol-valid, hence 8-bit) reference `r`, the stored session counter
becomes `(r + 1) % 256` — so it stays in `[0, 255]` and wraps from 255 to
0 — the `SentSms` keeps `r`, and the reference handed to PDU encoding is
the pre-send counter value. -/
theorem sendSms_reference_counter (smsRef r : Nat) (line : String)
    (hparse : parseCmgsReference line = some r) (hr : r ≤ 255) :
    sendSmsFinish smsRef line =
      some { encodeReference := smsRef, smsReference := r,
             newSmsRef := (r + 1) % 256 }
    ∧ (r + 1) % 256 ≤ 255
    ∧ (r = 255 → (r + 1) % 256 = 0) := by
  have hupd : sendSmsRefUpdate r = (r + 1) % 256 := by
    unfold sendSmsRefUpdate
    by_cases h5 : r + 1 > 255
    · rw [if_pos h5]
      omega
    · rw [if_neg h5, Nat.mod_eq_of_lt (by omega)]
  refine ⟨?_, by omega, by omega⟩
  simp [sendSmsFinish, hparse, hupd]

theorem sendSms_reference_counter_witness :
    sendSmsFinish 7 ("+CMGS: 255") =
      some { encodeReference := 7, smsReference := 255,
             newSmsRef := (255 + 1) % 256 }
    ∧ (255 + 1) % 256 ≤ 255
    ∧ (255 = 255 → (255 + 1) % 256 = 0) :=
  sendSms_reference_counter 7 255 ("+CMGS: 255") (by decide) (by decide)

/-- C6: classification of the terminal response line by `GsmModem.write`:
a busy coded error (code 515 or 14) is not surfaced to the caller — the
same command is re-issued once per busy signal with the wait grown by 0.2s,
the caller receives only the eventual non-busy result, and the wait then
settles to 0.1s (after a 515) or 0s (after a 14); any other coded error is
raised as the typed CME/CMS error of its domain; a terminal line containing
`ERROR` without a full coded-error match, and the `COMMAND NOT SUPPORT`
terminal, raise a generic command failure. -/
theorem modemWrite_busy_retry_classification
    (w code : Nat) (d : CmDomain) (attempt : List String)
    (rest : List (List String))
    (hsub : pyContains (attempt.getLastD ("")) ("ERROR") = true)
    (hparse : parseCmError (attempt.getLastD ("")) = some (d, code)) :
    ((code = 515 ∨ code = 14) →
        ∀ result w2, modemWrite (w + 2) rest = WriteResult.ok result w2 →
          modemWrite w (attempt :: rest) =
            WriteResult.ok result (if code = 515 then 1 else 0))
    ∧ (code ≠ 515 → code ≠ 14 →
        modemWrite w (attempt :: rest) = codedError d code)
    ∧ (∀ attempt2 : List String,
        pyContains (attempt2.getLastD ("")) ("ERROR") = true →
        parseCmError (attempt2.getLastD ("")) = none →
        modemWrite w (attempt2 :: rest) = WriteResult.commandError)
    ∧ (∀ attempt3 : List String,
        attempt3.getLastD ("") = "COMMAND NOT SUPPORT" →
        modemWrite w (attempt3 :: rest) = WriteResult.commandError) := by
  simp only [List.getLastD_eq_getLast?] at hsub hparse
  refine ⟨?_, ?_, ?_, ?_⟩
  · rintro (rfl | rfl) result w2 hrec <;>
      simp [modemWrite, hsub, hparse, hrec]
  · intro h1 h2
    simp [modemWrite, hsub, hparse, h1, h2]
  · intro attempt2 hs hp
    simp only [List.getLastD_eq_getLast?] at hs hp
    simp [modemWrite, hs, hp]
  · intro attempt3 he
    simp only [List.getLastD_eq_getLast?] at he
    have hc : pyContains ("COMMAND NOT SUPPORT") ("ERROR") = false := by decide
    simp [modemWrite, he, hc]

theorem modemWrite_busy_retry_classification_witness :
    modemWrite 0 [[("+CME ERROR: 515")], [("OK")]] =
      WriteResult.ok [("OK")] (if (515 : Nat) = 515 then 1 else 0) :=
  (modemWrite_busy_retry_classification 0 515 CmDomain.CME
      [("+CME ERROR: 515")] [[("OK")]] (by decide) (by decide)).1
    (Or.inl rfl) [("OK")] 2 (by decide)

/-- Auxiliary: the message threaded through the multi-match filtering loop
of `_parseCusdResponse` ends up as the content of the last non-release
match, falling back to the incoming accumulator value when every match is a
release. -/
theorem parseCusdFold_message (ms : List CusdMatch) :
    ∀ msg0 act0, (parseCusdFold ms msg0 act0).1 =
      (match lastNonRelease ms with
       | some c => some c
       | none => msg0) := by
  induction ms with
  | nil => intro msg0 act0; rfl
  | cons m rest ih =>
      intro msg0 act0
      by_cases hm : m.status = "2" <;>
        cases hl : lastNonRelease rest <;>
          simp [parseCusdFold, lastNonRelease, hm, hl, ih]

/-- Auxiliary: the session-active flag threaded through the multi-match
filtering loop of `_parseCusdResponse` ends up true exactly when it came in
true and every match has status `"1"`. -/
theorem parseCusdFold_active (ms : List CusdMatch) :
    ∀ msg0 act0, (parseCusdFold ms msg0 act0).2 =
      (act0 && ms.all (fun mm => decide (mm.status = "1"))) := by
  induction ms with
  | nil => intro msg0 act0; simp [parseCusdFold]
  | cons m rest ih =>
      intro msg0 act0
      by_cases hm : m.status = "2"
      · have hm1 : ¬ m.status = "1" := by rw [hm]; decide
        simp [parseCusdFold, hm, hm1, ih]
      · by_cases h1 : m.status = "1" <;> cases act0 <;>
          simp [parseCusdFold, hm, h1, ih]

/-- C7: for a USSD notification batch in which multiple `+CUSD` matches are
found, the returned `Ussd` object's message is the content of the last
non-release match (status code not `"2"`); release matches never override
the message (a batch of only release matches leaves it `None`, the
fallback); and the session is active only if every match has status `"1"`,
so the presence of any release match marks the session inactive. -/
theorem parseCusd_multiple (ms : List CusdMatch) (h : 1 < ms.length) :
    parseCusdResponse ms =
      some (lastNonRelease ms, ms.all (fun mm => decide (mm.status = "1")))
    ∧ (∀ m ∈ ms, m.status = "2" →
        ms.all (fun mm => decide (mm.status = "1")) = false) := by
  obtain ⟨m1, ms1, rfl⟩ : ∃ a l, ms = a :: l := by
    cases ms with
    | nil => simp at h
    | cons a l => exact ⟨a, l, rfl⟩
  obtain ⟨m2, ms2, rfl⟩ : ∃ a l, ms1 = a :: l := by
    cases ms1 with
    | nil => simp at h
    | cons a l => exact ⟨a, l, rfl⟩
  constructor
  · have h1 : (parseCusdFold (m1 :: m2 :: ms2) none true).1 =
        lastNonRelease (m1 :: m2 :: ms2) := by
      rw [parseCusdFold_message]
      cases lastNonRelease (m1 :: m2 :: ms2) <;> rfl
    have h2 : (parseCusdFold (m1 :: m2 :: ms2) none true).2 =
        (m1 :: m2 :: ms2).all (fun mm => decide (mm.status = "1")) := by
      rw [parseCusdFold_active]
      simp
    show some (parseCusdFold (m1 :: m2 :: ms2) none true) = _
    exact congrArg some (Prod.ext h1 h2)
  · intro m hm hs2
    cases hall : (m1 :: m2 :: ms2).all (fun mm => decide (mm.status = "1")) with
    | false => rfl
    | true =>
        rw [List.all_eq_true] at hall
        have h3 := hall m hm
        rw [hs2] at h3
        simp at h3

theorem parseCusd_multiple_witness :
    parseCusdResponse [CusdMatch.mk ("2") ("ignored"), CusdMatch.mk ("0") ("real")] =
      some (lastNonRelease [CusdMatch.mk ("2") ("ignored"),
              CusdMatch.mk ("0") ("real")],
        List.all [CusdMatch.mk ("2") ("ignored"), CusdMatch.mk ("0") ("real")]
          (fun mm => decide (mm.status = "1"))) :=
  (parseCusd_multiple _ (by decide)).1

/-- C8 (counterexample): synthesized call ids can collide with an active
call after removals.  Two dials on an empty table synthesize ids 1 and 2;
after call 1 ends and is removed, the table is `[2]` and the next
synthesized id is `len(activeCalls) + 1 = 2` — the id of a call that is
still active (the dict assignment would overwrite it), refuting uniqueness
for every prior sequence of call additions and removals. -/
theorem synth_call_id_collision :
    synthCallId (tableRemove (dialAddCall (dialAddCall []).2).2 1) ∈
      tableRemove (dialAddCall (dialAddCall []).2).2 1 := by decide

/-- C8 (amended): the synthesized id `len(activeCalls) + 1` is unique among
the currently active calls whenever every active call id lies in
`{1, …, len(activeCalls)}` (for instance while calls are only being added);
after removals this precondition can fail and the synthesized id can equal
an active call's id. -/
theorem synth_call_id_unique (t : List Nat)
    (h : ∀ i ∈ t, 1 ≤ i ∧ i ≤ t.length) :
    synthCallId t ∉ t := by
  intro hmem
  have h2 := h _ hmem
  simp only [synthCallId] at h2
  omega

theorem synth_call_id_unique_witness :
    synthCallId [1, 2] ∉ ([1, 2] : List Nat) :=
  synth_call_id_unique [1, 2] (by decide)

/-- C9: for a `+CMTI` new-SMS notification carrying a storage index, the
handler reads the message at that index (from the announced memory),
invokes the registered received-SMS callback, and issues the
delete-by-index command for that index if and only if the callback returns
without raising; when the callback raises, the exception is caught and
logged — the handler (a total function here) still returns normally, so the
exception does not propagate. -/
theorem handleSmsReceived_delete_iff (line mem idx : String)
    (callbackRaises : Bool) (h : parseCmti line = some (mem, idx)) :
    (SmsAction.deleteStoredSms idx ∈ handleSmsReceived line callbackRaises ↔
      callbackRaises = false)
    ∧ SmsAction.readStoredSms idx mem ∈ handleSmsReceived line callbackRaises
    ∧ SmsAction.invokeCallback idx ∈ handleSmsReceived line callbackRaises
    ∧ (callbackRaises = true →
        SmsAction.logCallbackError ∈ handleSmsReceived line callbackRaises) := by
  cases callbackRaises <;> simp [handleSmsReceived, h]

theorem handleSmsReceived_delete_iff_witness :
    (SmsAction.deleteStoredSms ("5") ∈ handleSmsReceived ("+CMTI: \"SM\",5") false ↔
      false = false)
    ∧ SmsAction.readStoredSms ("5") ("SM") ∈
        handleSmsReceived ("+CMTI: \"SM\",5") false
    ∧ SmsAction.invokeCallback ("5") ∈ handleSmsReceived ("+CMTI: \"SM\",5") false
    ∧ (false = true →
        SmsAction.logCallbackError ∈ handleSmsReceived ("+CMTI: \"SM\",5") false) :=
  handleSmsReceived_delete_iff ("+CMTI: \"SM\",5") ("SM") ("5") false (by decide)
